import Mathlib

/-!
Shallow embedding of the transport-connectivity core of the kayrx HTTP
client stack: the protocol-dispatching connector (`src/http/client/connector.rs`),
the `Apply` service combinator (`src/service/apply.rs`), and the timer
`Interval` (`src/timer/interval.rs`), together with theorems settling the
specification claims about them.

Time is modelled in nanoseconds: `Duration` and `Instant` are `Nat`
(`std::time::Duration` holds secs + nanos; every duration appearing here is a
whole number of nanoseconds, and `Instant` arithmetic is `Nat` addition).
-/

/-- `std::time::Duration`, as a total count of nanoseconds. -/
abbrev Duration := Nat

/-- `Duration::from_secs`. -/
def Duration.from_secs (s : Nat) : Duration := s * 1000000000

/-- `Duration::from_millis`. -/
def Duration.from_millis (m : Nat) : Duration := m * 1000000

/-- A point in time (`timer::Instant`), in nanoseconds from an arbitrary origin. -/
abbrev Instant := Nat

/-- `std::task::Poll`. -/
inductive Poll (A : Type) : Type
  | Ready (a : A)
  | Pending
deriving Repr, DecidableEq

/-- `Result<A, E>` (Rust order: value type first, error type second). -/
inductive RustResult (A E : Type) : Type
  | Ok (a : A)
  | Err (e : E)
deriving Repr, DecidableEq

/-! ## `ConnectError` and the timeout error union

`ConnectError` is the error surface of `src/http/client/error.rs` (not under
`src/`; the variant list follows the spec §6: Timeout, Resolve, Io, TlsHandshake,
Disconnected). Only the `Timeout` variant is inspected by any claim; the others
are carried opaquely. -/

/-- The client `ConnectError` tagged union. -/
inductive ConnectError : Type
  | Timeout
  | Resolve
  | IoError
  | TlsHandshake
  | Disconnected
deriving Repr, DecidableEq

/-- `TimeoutError<E>` from `util::timeout`: the timeout combinator's error
union, distinguishing an inner-service error from timer expiry. -/
inductive TimeoutError (E : Type) : Type
  | Service (e : E)
  | Timeout
deriving Repr, DecidableEq

/-- The `map_err` closure applied to the TLS path in `Connector::finish`
(connector.rs lines 219-222): flatten the timeout error union into
`ConnectError`. -/
def ssl_map_err : TimeoutError ConnectError → ConnectError
  | TimeoutError.Service e => e
  | TimeoutError.Timeout => ConnectError.Timeout

/-- The `map_err` closure applied to the TCP path in `Connector::finish`
(connector.rs lines 232-235); textually identical to the TLS one. -/
def tcp_map_err : TimeoutError ConnectError → ConnectError
  | TimeoutError.Service e => e
  | TimeoutError.Timeout => ConnectError.Timeout

/-! ## ALPN protocol sniffing (`Connector::finish`, TLS path) -/

/-- Negotiated application protocol tag (`pool::Protocol`). -/
inductive Protocol : Type
  | Http1
  | Http2
deriving Repr, DecidableEq

/-- The constant `H2: &[u8] = b"h2"` from connector.rs (bytes 0x68 'h', 0x32 '2'). -/
def H2 : List Nat := [104, 50]

/-- `slice::windows(2)`: all contiguous length-2 windows of a byte sequence,
in order. A sequence shorter than 2 has no windows. -/
def windows2 : List Nat → List (List Nat)
  | a :: b :: rest => [a, b] :: windows2 (b :: rest)
  | _ => []

/-- The ALPN sniff in the TLS path's `map` closure (connector.rs lines 202-215):
`get_alpn_protocol().map(|protos| protos.windows(2).any(|w| w == H2)).unwrap_or(false)`.
`alpn` is `None` when no ALPN protocol was negotiated. -/
def alpn_h2 (alpn : Option (List Nat)) : Bool :=
  (alpn.map (fun protos => (windows2 protos).any (fun w => w == H2))).getD false

/-- The protocol tag chosen by the TLS path: `Http2` when the sniff found
`"h2"`, `Http1` otherwise (connector.rs lines 210-214). -/
def ssl_protocol (alpn : Option (List Nat)) : Protocol :=
  if alpn_h2 alpn then Protocol.Http2 else Protocol.Http1

/-! ## Connect requests and the protocol dispatcher -/

/-- A pre-resolved socket address, carried opaquely. -/
abbrev SocketAddr := Nat

/-- The scheme-relevant part of `http::Uri`: `scheme_str()` yields
`Option<&str>`. -/
structure Uri where
  scheme_str : Option String
deriving Repr, DecidableEq

/-- `client::Connect`: `{ uri, addr: Option<SocketAddr> }`. -/
structure Connect where
  uri : Uri
  addr : Option SocketAddr
deriving Repr, DecidableEq

/-- `connection::EitherConnection`: the two-variant unified connection type;
`A` is the plain-TCP variant, `B` the TLS variant (connector.rs lines 354-388). -/
inductive EitherConnection (A B : Type) : Type
  | A (a : A)
  | B (b : B)
deriving Repr, DecidableEq

/-- `InnerConnector`: the protocol dispatcher holding the two pools
(connector.rs lines 270-279). The pools are abstract states `T1`, `T2`;
their operations are passed to the methods below. -/
structure InnerConnector (T1 T2 : Type) where
  tcp_pool : T1
  ssl_pool : T2
deriving Repr, DecidableEq

/-- `InnerConnector::poll_ready` (connector.rs lines 315-317): delegate to the
TCP pool's readiness. `tcpPollReady` is the TCP pool's `poll_ready`. -/
def InnerConnector.poll_ready {T1 T2 : Type}
    (tcpPollReady : T1 → Poll (RustResult Unit ConnectError))
    (c : InnerConnector T1 T2) : Poll (RustResult Unit ConnectError) :=
  tcpPollReady c.tcp_pool

/-- `InnerConnector::call` (connector.rs lines 319-330): match on
`req.uri.scheme_str()`; `Some("https") | Some("wss")` routes to the TLS pool
(result wrapped `EitherConnection::B` by `InnerConnectorResponseB`), everything
else to the TCP pool (wrapped `EitherConnection::A`). `tcpCall` / `sslCall`
are the pools' `call` followed by each response future's resolution. -/
def InnerConnector.call {T1 T2 C1 C2 : Type}
    (tcpCall : T1 → Connect → C1) (sslCall : T2 → Connect → C2)
    (c : InnerConnector T1 T2) (req : Connect) : EitherConnection C1 C2 :=
  match req.uri.scheme_str with
  | some "https" => EitherConnection.B (sslCall c.ssl_pool req)
  | some "wss" => EitherConnection.B (sslCall c.ssl_pool req)
  | _ => EitherConnection.A (tcpCall c.tcp_pool req)

/-- The scheme predicate of the TLS arm of `InnerConnector::call`. -/
def isTlsScheme : Option String → Prop :=
  fun s => s = some "https" ∨ s = some "wss"

instance (s : Option String) : Decidable (isTlsScheme s) := by
  unfold isTlsScheme
  infer_instance

/-! ## Connector builder and `finish` -/

/-- The `Connector` builder's configuration fields (connector.rs lines 38-48).
The base connect service and TLS `ClientConfig` are carried abstractly as the
type parameter `T` and the unit `ssl` marker: no claim inspects them. -/
structure Connector (T : Type) where
  connector : T
  timeout : Duration
  conn_lifetime : Duration
  conn_keep_alive : Duration
  disconnect_timeout : Duration
  limit : Nat
deriving Repr, DecidableEq

/-- `Connector::new` (connector.rs lines 76-85): the default configuration
around a base connect service. -/
def Connector.new {T : Type} (base : T) : Connector T :=
  { connector := base
    timeout := Duration.from_secs 1
    conn_lifetime := Duration.from_secs 75
    conn_keep_alive := Duration.from_secs 15
    disconnect_timeout := Duration.from_millis 3000
    limit := 100 }

/-- Setter `Connector::timeout` (connector.rs lines 125-128). Named `set_`
because the Lean field projection already takes the source name. -/
def Connector.set_timeout {T : Type} (c : Connector T) (d : Duration) : Connector T :=
  { c with timeout := d }

/-- Setter `Connector::limit` (connector.rs lines 139-142). -/
def Connector.set_limit {T : Type} (c : Connector T) (n : Nat) : Connector T :=
  { c with limit := n }

/-- Setter `Connector::conn_keep_alive` (connector.rs lines 150-153). -/
def Connector.set_conn_keep_alive {T : Type} (c : Connector T) (dur : Duration) : Connector T :=
  { c with conn_keep_alive := dur }

/-- Setter `Connector::conn_lifetime` (connector.rs lines 160-163). -/
def Connector.set_conn_lifetime {T : Type} (c : Connector T) (dur : Duration) : Connector T :=
  { c with conn_lifetime := dur }

/-- Setter `Connector::disconnect_timeout` (connector.rs lines 173-176). -/
def Connector.set_disconnect_timeout {T : Type} (c : Connector T) (dur : Duration) : Connector T :=
  { c with disconnect_timeout := dur }

/-- `TimeoutService::new(timeout, inner)` from `util::timeout`: the
timeout-wrapping combinator, recorded by its configuration. -/
structure TimeoutService (S : Type) where
  timeout : Duration
  inner : S
deriving Repr, DecidableEq

/-- `ConnectionPool::new(service, conn_lifetime, conn_keep_alive,
disconnect_timeout, limit)` as called from `Connector::finish`
(connector.rs lines 238-251). `pool.rs` is not under `src/`; the constructor's
argument list is taken from this call site and the fields named after the
spec §4.5 configuration. -/
structure ConnectionPool (S : Type) where
  service : S
  conn_lifetime : Duration
  conn_keep_alive : Duration
  disconnect_timeout : Option Duration
  limit : Nat
deriving Repr, DecidableEq

/-- Marker for the TLS path's inner pipeline (apply_fn ∘ TLS handshake ∘ ALPN
map); its behaviour is captured separately by `ssl_protocol` and `ssl_map_err`. -/
structure SslPipeline (T : Type) where
  base : T
deriving Repr, DecidableEq

/-- Marker for the TCP path's inner pipeline (apply_fn ∘ map to
`(stream, Protocol::Http1)`). -/
structure TcpPipeline (T : Type) where
  base : T
deriving Repr, DecidableEq

/-- `Connector::finish` (connector.rs lines 181-254): build the TLS and TCP
services, each timeout-wrapped with `self.timeout`, then the dispatcher over
two pools — the TCP pool with `None` disconnect timeout, the TLS pool with
`Some(self.disconnect_timeout)`; both share `conn_lifetime`, `conn_keep_alive`
and `limit`. -/
def Connector.finish {T : Type} (c : Connector T) :
    InnerConnector (ConnectionPool (TimeoutService (TcpPipeline T)))
      (ConnectionPool (TimeoutService (SslPipeline T))) :=
  let ssl_service : TimeoutService (SslPipeline T) :=
    { timeout := c.timeout, inner := { base := c.connector } }
  let tcp_service : TimeoutService (TcpPipeline T) :=
    { timeout := c.timeout, inner := { base := c.connector } }
  { tcp_pool :=
      { service := tcp_service
        conn_lifetime := c.conn_lifetime
        conn_keep_alive := c.conn_keep_alive
        disconnect_timeout := none
        limit := c.limit }
    ssl_pool :=
      { service := ssl_service
        conn_lifetime := c.conn_lifetime
        conn_keep_alive := c.conn_keep_alive
        disconnect_timeout := some c.disconnect_timeout
        limit := c.limit } }

/-! ## `Apply` combinator readiness (`src/service/apply.rs`) -/

/-- `Apply::poll_ready` (apply.rs lines 85-87):
`Poll::Ready(ready!(self.service.poll_ready(cx)))` — the `ready!` macro
returns `Pending` when the inner poll is `Pending` and otherwise unwraps the
ready value, which is immediately rewrapped. `inner` is the result of
`self.service.poll_ready(cx)`. -/
def Apply.poll_ready {E : Type} (inner : Poll (RustResult Unit E)) :
    Poll (RustResult Unit E) :=
  match inner with
  | Poll.Pending => Poll.Pending
  | Poll.Ready r => Poll.Ready r

/-! ## Timer `Interval` (`src/timer/interval.rs`)

The `Timer` namespace mirrors the `crate::timer` module (Mathlib already
takes the bare name `Interval`). -/

namespace Timer

/-- `timer::Delay`: a future completing at `deadline`. `delay.rs` is not under
`src/`; its deadline bookkeeping follows `driver/registration.rs`, which is:
`deadline()` reads the stored deadline (registration.rs lines 23-25) and
`reset(new)` overwrites it (lines 27-33). -/
structure Delay where
  deadline : Instant
deriving Repr, DecidableEq

/-- Modelled from the spec: `delay_until(deadline)` (from the missing
`src/timer/delay.rs`) creates a `Delay` completing at `deadline`; §4.2 -
"`Registration::new(deadline, duration)` creates an `Entry` ... at the slot
corresponding to its deadline". -/
def delay_until (deadline : Instant) : Delay :=
  { deadline := deadline }

/-- `Delay::reset` (via `Registration::reset`, registration.rs lines 27-33):
replace the deadline. -/
def Delay.reset (_d : Delay) (deadline : Instant) : Delay :=
  { deadline := deadline }

/-- The `Interval` stream (interval.rs lines 89-95). -/
structure Interval where
  delay : Delay
  period : Duration
deriving Repr, DecidableEq

/-- `interval_at(start, period)` (interval.rs lines 78-85): panics
(modelled `none`) when `period` is the zero duration, else first tick at
`start`. -/
def interval_at (start : Instant) (period : Duration) : Option Interval :=
  if 0 < period then
    some { delay := delay_until start, period := period }
  else
    none

/-- `interval(period)` (interval.rs lines 45-49): panics (modelled `none`)
when `period` is zero, else `interval_at(Instant::now(), period)`. `now` is
the current instant. -/
def interval (now : Instant) (period : Duration) : Option Interval :=
  if 0 < period then
    interval_at now period
  else
    none

/-- `Interval::poll_tick` (interval.rs lines 99-113). `delayElapsed` tells
whether the inner delay's poll returned `Ready` (the `ready!` on line 101);
when it did: read `now` from the delay's deadline, reset the delay to
`now + period`, and return `Ready(now)` together with the updated interval. -/
def Interval.poll_tick (i : Interval) (delayElapsed : Bool) :
    Poll (Instant × Interval) :=
  if delayElapsed then
    let now := i.delay.deadline
    let next := now + i.period
    Poll.Ready (now, { i with delay := i.delay.reset next })
  else
    Poll.Pending

/-- The state of an `Interval` after `n` fired ticks. -/
def Interval.fireN (i : Interval) : Nat → Interval
  | 0 => i
  | n + 1 =>
    let j := Interval.fireN i n
    { j with delay := j.delay.reset (j.delay.deadline + j.period) }

end Timer

/-! ## Connection-pool checkout policy (spec-modelled) -/

/-- A pooled idle entry's age bookkeeping. Modelled from the spec:
`src/http/client/pool.rs` is not under `src/`; spec §3 - "Pool entry:
`{ connection, protocol, authority key, created_at, last_used_at }`". The
connection payload is irrelevant to the age policy and omitted. -/
structure PoolEntry where
  created_at : Instant
  last_used_at : Instant
deriving Repr, DecidableEq

/-- Modelled from the spec (§3): "An entry is reusable only while
`now - last_used_at < conn_keep_alive` AND `now - created_at < conn_lifetime`". -/
def entryReusable (conn_keep_alive conn_lifetime : Duration)
    (e : PoolEntry) (now : Instant) : Bool :=
  decide (now - e.last_used_at < conn_keep_alive) &&
    decide (now - e.created_at < conn_lifetime)

/-- Outcome of a pool checkout: reuse an idle entry, or establish a new
connection. -/
inductive CheckoutResult : Type
  | Reuse (e : PoolEntry)
  | Establish
deriving Repr, DecidableEq

/-- Modelled from the spec (§4.5): `call(req)` looks through the idle-entry
collection for the authority key; expired entries are discarded before
considering reuse ("every lookup opportunistically discards idle entries ...
that have exceeded `conn_keep_alive` or `conn_lifetime`"), a non-expired entry
is reused, and with no reusable entry a new connection is established. -/
def checkout (conn_keep_alive conn_lifetime : Duration) (now : Instant) :
    List PoolEntry → CheckoutResult
  | [] => CheckoutResult.Establish
  | e :: rest =>
    if entryReusable conn_keep_alive conn_lifetime e now then
      CheckoutResult.Reuse e
    else
      checkout conn_keep_alive conn_lifetime now rest

/-! # Helper lemmas -/

/-- Membership in the length-2 windows of a list is exactly occurrence as a
contiguous two-element infix. -/
theorem mem_windows2_iff (a b : Nat) : ∀ (l : List Nat),
    ([a, b] ∈ windows2 l ↔ [a, b] <:+: l)
  | [] => by
    constructor
    · intro h
      simp [windows2] at h
    · intro h
      have := h.length_le
      simp at this
  | [x] => by
    constructor
    · intro h
      simp [windows2] at h
    · intro h
      have := h.length_le
      simp at this
  | x :: y :: t => by
    have ih := mem_windows2_iff a b (y :: t)
    simp only [windows2, List.mem_cons, ih, List.infix_cons_iff, List.cons_prefix_cons,
      List.nil_prefix, and_true, List.cons.injEq]

/-- `entryReusable` decides exactly the spec's two age bounds. -/
theorem entryReusable_iff (ka lt : Duration) (e : PoolEntry) (now : Instant) :
    entryReusable ka lt e now = true ↔
      now - e.last_used_at < ka ∧ now - e.created_at < lt := by
  simp [entryReusable]

/-- Firing an interval never changes its period. -/
theorem Timer.Interval.fireN_period (i : Timer.Interval) : ∀ n : Nat,
    (i.fireN n).period = i.period
  | 0 => rfl
  | n + 1 => by
    simp [Timer.Interval.fireN, Timer.Interval.fireN_period i n]

/-- After `n` fired ticks the deadline has advanced by exactly `n` periods. -/
theorem Timer.Interval.fireN_deadline (i : Timer.Interval) : ∀ n : Nat,
    (i.fireN n).delay.deadline = i.delay.deadline + n * i.period
  | 0 => by simp [Timer.Interval.fireN]
  | n + 1 => by
    simp [Timer.Interval.fireN, Timer.Delay.reset, Timer.Interval.fireN_deadline i n,
      Timer.Interval.fireN_period i n]
    ring

/-! # Claim theorems -/

/-- C1: `InnerConnector::call` routes by URI scheme: a request whose scheme is
`"https"` or `"wss"` is served by the TLS pool and tagged with the TLS variant
(`EitherConnection::B`) of the unified connection type; every other scheme,
an absent scheme included, is served by the plain-TCP pool and tagged with the
plain variant (`EitherConnection::A`). -/
theorem dispatcher_call_routes_by_scheme {T1 T2 C1 C2 : Type}
    (tcpCall : T1 → Connect → C1) (sslCall : T2 → Connect → C2)
    (c : InnerConnector T1 T2) (req : Connect) :
    (isTlsScheme req.uri.scheme_str →
      InnerConnector.call tcpCall sslCall c req =
        EitherConnection.B (sslCall c.ssl_pool req)) ∧
    (¬ isTlsScheme req.uri.scheme_str →
      InnerConnector.call tcpCall sslCall c req =
        EitherConnection.A (tcpCall c.tcp_pool req)) := by
  constructor
  · intro h
    unfold InnerConnector.call
    rcases h with h | h <;> rw [h] <;> rfl
  · intro h
    simp only [isTlsScheme, not_or] at h
    obtain ⟨h1, h2⟩ := h
    unfold InnerConnector.call
    split
    next heq => exact absurd heq h1
    next heq => exact absurd heq h2
    next => rfl

/-- Witness for C1: a `"https"` request resolves through the TLS pool's call
(tagged `B`), a `"http"` request through the TCP pool's call (tagged `A`). -/
theorem dispatcher_call_routes_by_scheme_witness :
    InnerConnector.call (fun (t : Nat) (_ : Connect) => t)
        (fun (t : Nat) (_ : Connect) => t + 1)
        ⟨7, 9⟩ ⟨⟨some "https"⟩, none⟩ = EitherConnection.B 10 ∧
    InnerConnector.call (fun (t : Nat) (_ : Connect) => t)
        (fun (t : Nat) (_ : Connect) => t + 1)
        ⟨7, 9⟩ ⟨⟨some "http"⟩, none⟩ = EitherConnection.A 7 :=
  ⟨(dispatcher_call_routes_by_scheme _ _ ⟨7, 9⟩ ⟨⟨some "https"⟩, none⟩).1
      (Or.inl rfl),
   (dispatcher_call_routes_by_scheme _ _ ⟨7, 9⟩ ⟨⟨some "http"⟩, none⟩).2
      (by simp [isTlsScheme])⟩

/-- C2: the TLS path tags `Protocol::Http2` exactly when the negotiated ALPN
byte sequence contains `"h2"` (bytes 104, 50) as a contiguous two-byte
subsequence; with no `"h2"` occurrence, or no ALPN protocol negotiated at all,
the tag is `Protocol::Http1`. -/
theorem ssl_protocol_h2_iff (protos : List Nat) :
    (ssl_protocol (some protos) = Protocol.Http2 ↔ [104, 50] <:+: protos) ∧
    (¬ [104, 50] <:+: protos → ssl_protocol (some protos) = Protocol.Http1) ∧
    ssl_protocol none = Protocol.Http1 := by
  have key : alpn_h2 (some protos) = true ↔ [104, 50] <:+: protos := by
    rw [← mem_windows2_iff]
    simp [alpn_h2, H2]
  have main : ssl_protocol (some protos) = Protocol.Http2 ↔ [104, 50] <:+: protos := by
    rw [← key]
    cases hb : alpn_h2 (some protos) <;> simp [ssl_protocol, hb]
  refine ⟨main, ?_, rfl⟩
  intro hn
  cases hb : alpn_h2 (some protos) with
  | false => simp [ssl_protocol, hb]
  | true => exact absurd (key.mp hb) hn

/-- Witness for C2: `"eh2"` (containing "h2" mid-sequence) tags `Http2`;
`"h32"` (no contiguous "h2") tags `Http1`. -/
theorem ssl_protocol_h2_iff_witness :
    ssl_protocol (some [101, 104, 50]) = Protocol.Http2 ∧
    ssl_protocol (some [104, 51, 50]) = Protocol.Http1 :=
  ⟨(ssl_protocol_h2_iff [101, 104, 50]).1.mpr (by decide),
   (ssl_protocol_h2_iff [104, 51, 50]).2.1 (by decide)⟩

/-- C3: on both paths produced by `finish`, the timeout combinator's error
union is flattened so that timer expiry yields exactly `ConnectError::Timeout`
while an inner-service error passes through unchanged. -/
theorem timeout_error_flattened (e : ConnectError) :
    tcp_map_err TimeoutError.Timeout = ConnectError.Timeout ∧
    ssl_map_err TimeoutError.Timeout = ConnectError.Timeout ∧
    tcp_map_err (TimeoutError.Service e) = e ∧
    ssl_map_err (TimeoutError.Service e) = e :=
  ⟨rfl, rfl, rfl, rfl⟩

/-- C4: a pool entry is handed out for reuse only while
`now - last_used_at < conn_keep_alive` and `now - created_at < conn_lifetime`;
when every idle entry violates one of the bounds, checkout discards them and
establishes a new connection. -/
theorem pool_checkout_age_policy (ka lt : Duration) (now : Instant) :
    ∀ idle : List PoolEntry,
      (∀ e, checkout ka lt now idle = CheckoutResult.Reuse e →
        now - e.last_used_at < ka ∧ now - e.created_at < lt) ∧
      ((∀ e ∈ idle, ¬ (now - e.last_used_at < ka ∧ now - e.created_at < lt)) →
        checkout ka lt now idle = CheckoutResult.Establish)
  | [] => by
    constructor
    · intro e h
      simp [checkout] at h
    · intro _
      rfl
  | e0 :: rest => by
    have ih := pool_checkout_age_policy ka lt now rest
    constructor
    · intro e h
      simp only [checkout] at h
      by_cases hr : entryReusable ka lt e0 now = true
      · rw [if_pos hr] at h
        injection h with h
        subst h
        exact (entryReusable_iff ka lt e0 now).mp hr
      · rw [if_neg hr] at h
        exact ih.1 e h
    · intro hall
      have h0 : ¬ entryReusable ka lt e0 now = true := by
        rw [entryReusable_iff]
        exact hall e0 (List.mem_cons_self e0 rest)
      simp only [checkout]
      rw [if_neg h0]
      exact ih.2 (fun e he => hall e (List.mem_cons_of_mem e0 he))

/-- Witness for C4: with keep-alive 10 and lifetime 100 at time 20, a fresh
entry is reused and handing-out implies both bounds; a stale idle list is
discarded in favour of a new connection. -/
theorem pool_checkout_age_policy_witness :
    (20 - (15 : Nat) < 10 ∧ 20 - (15 : Nat) < 100) ∧
    checkout 10 100 20 [{ created_at := 1, last_used_at := 1 }] =
      CheckoutResult.Establish :=
  ⟨(pool_checkout_age_policy 10 100 20
      [{ created_at := 15, last_used_at := 15 }]).1
      { created_at := 15, last_used_at := 15 } (by decide),
   (pool_checkout_age_policy 10 100 20
      [{ created_at := 1, last_used_at := 1 }]).2 (by decide)⟩

/-- C5: `InnerConnector::poll_ready` delegates solely to the plain-TCP pool's
readiness: its result is the TCP pool's `poll_ready` result, and it is
insensitive to the TLS pool's state. -/
theorem dispatcher_poll_ready_delegates_to_tcp_pool {T1 T2 : Type}
    (tcpPollReady : T1 → Poll (RustResult Unit ConnectError))
    (c : InnerConnector T1 T2) :
    InnerConnector.poll_ready tcpPollReady c = tcpPollReady c.tcp_pool ∧
    (∀ ssl2 : T2,
      InnerConnector.poll_ready tcpPollReady
          { tcp_pool := c.tcp_pool, ssl_pool := ssl2 } =
        InnerConnector.poll_ready tcpPollReady c) :=
  ⟨rfl, fun _ => rfl⟩

/-- C6: `finish` applies the configured `disconnect_timeout` only to the TLS
pool: the plain-TCP pool is constructed with `None` and the TLS pool with
`Some(disconnect_timeout)`, for every builder configuration. -/
theorem finish_disconnect_timeout_tls_only {T : Type} (c : Connector T) :
    (Connector.finish c).tcp_pool.disconnect_timeout = none ∧
    (Connector.finish c).ssl_pool.disconnect_timeout = some c.disconnect_timeout :=
  ⟨rfl, rfl⟩

/-- C7: `Connector::new` defaults are timeout 1 s, conn_lifetime 75 s,
conn_keep_alive 15 s, disconnect_timeout 3000 ms, limit 100; and each setter
replaces only its own field. -/
theorem connector_defaults_and_setters {T : Type} (base : T) (c : Connector T)
    (d : Duration) (n : Nat) :
    (Connector.new base).timeout = Duration.from_secs 1 ∧
    (Connector.new base).conn_lifetime = Duration.from_secs 75 ∧
    (Connector.new base).conn_keep_alive = Duration.from_secs 15 ∧
    (Connector.new base).disconnect_timeout = Duration.from_millis 3000 ∧
    (Connector.new base).limit = 100 ∧
    Connector.set_timeout c d = { c with timeout := d } ∧
    Connector.set_limit c n = { c with limit := n } ∧
    Connector.set_conn_keep_alive c d = { c with conn_keep_alive := d } ∧
    Connector.set_conn_lifetime c d = { c with conn_lifetime := d } ∧
    Connector.set_disconnect_timeout c d = { c with disconnect_timeout := d } :=
  ⟨rfl, rfl, rfl, rfl, rfl, rfl, rfl, rfl, rfl, rfl⟩

/-- C8: for an interval created by `interval_at(start, p)`, each fired tick
returns the fired deadline instant and reschedules the next deadline at the
fired instant plus the period, so after `n` ticks the deadline is exactly
`start + n * p` with no drift accumulation. -/
theorem interval_no_drift (start : Instant) (p : Duration) (i : Timer.Interval)
    (h : Timer.interval_at start p = some i) (n : Nat) :
    Timer.Interval.poll_tick (i.fireN n) true =
      Poll.Ready (start + n * p, i.fireN (n + 1)) ∧
    (i.fireN n).delay.deadline = start + n * p ∧
    (i.fireN (n + 1)).delay.deadline = (i.fireN n).delay.deadline + p := by
  have hi : i = { delay := { deadline := start }, period := p } := by
    unfold Timer.interval_at at h
    split at h
    · simp only [Timer.delay_until, Option.some.injEq] at h
      exact h.symm
    · exact absurd h (by simp)
  subst hi
  have hd := Timer.Interval.fireN_deadline { delay := { deadline := start }, period := p } n
  have hd1 := Timer.Interval.fireN_deadline { delay := { deadline := start }, period := p } (n + 1)
  have hp := Timer.Interval.fireN_period { delay := { deadline := start }, period := p } n
  refine ⟨?_, hd, ?_⟩
  · simp only [Timer.Interval.poll_tick, if_pos rfl, Timer.Interval.fireN, hd, hp]
    rfl
  · rw [hd, hd1]
    ring

/-- Witness for C8: the interval starting at 5 with period 3 has, after two
fired ticks, deadline 5 + 2 * 3 = 11. -/
theorem interval_no_drift_witness :
    (Timer.Interval.fireN { delay := { deadline := 5 }, period := 3 } 2).delay.deadline =
      5 + 2 * 3 :=
  (interval_no_drift 5 3 { delay := { deadline := 5 }, period := 3 } rfl 2).2.1

/-- C9: `Apply::poll_ready` forwards readiness unchanged — its result is
exactly the inner service's `poll_ready` result, whether `Ready(Ok)`,
`Ready(Err)` or `Pending`. -/
theorem apply_poll_ready_transparent {E : Type} (inner : Poll (RustResult Unit E)) :
    Apply.poll_ready inner = inner := by
  cases inner <;> rfl

/-- C10: `interval` and `interval_at` panic (modelled `none`) exactly when the
period is the zero duration; for a non-zero period they return an interval
whose first tick is due at `now` (for `interval`) respectively at `start`
(for `interval_at`), with the given period. -/
theorem interval_zero_period_panics (now start : Instant) (p : Duration) :
    (Timer.interval now p = none ↔ p = 0) ∧
    (Timer.interval_at start p = none ↔ p = 0) ∧
    (p ≠ 0 → ∃ i, Timer.interval now p = some i ∧
      i.delay.deadline = now ∧ i.period = p) ∧
    (p ≠ 0 → ∃ i, Timer.interval_at start p = some i ∧
      i.delay.deadline = start ∧ i.period = p) := by
  unfold Timer.interval Timer.interval_at Timer.delay_until
  rcases Nat.eq_zero_or_pos p with hp | hp
  · subst hp
    simp
  · have hne : p ≠ 0 := Nat.pos_iff_ne_zero.mp hp
    simp [hp, hne]

/-- Witness for C10: period 0 panics for both constructors; period 3 yields an
interval first due at the given start. -/
theorem interval_zero_period_panics_witness :
    Timer.interval 4 0 = none ∧
    (∃ i, Timer.interval_at 9 3 = some i ∧
      i.delay.deadline = 9 ∧ i.period = 3) :=
  ⟨(interval_zero_period_panics 4 9 0).1.mpr rfl,
   (interval_zero_period_panics 4 9 3).2.2.2 (by decide)⟩
